import Mathlib

/-!
Verification development for the svc-video upload service
(src/app.js and src/azureStorage.js), a Node/Express microservice that
stores uploaded videos either in Azure Blob Storage or on the local
filesystem, tracks metadata rows, issues SAS access URLs and orchestrates
an external transcription job.

The JavaScript handlers are shallowly embedded as pure Lean functions.
External effects (the Azure SDK calls, the filesystem, the Prisma store,
the transcription service fetch) are modelled by explicit parameters that
record whether each effectful step succeeds, and by returning the
side-effect trace (storage writes, record creation) together with the
HTTP-level outcome.
-/

namespace SvcVideo

/-- Process-wide configuration, read once at startup from the environment
(`PORT`/`GATEWAY_URL`/`AZURE_STORAGE_*` in app.js lines 27-49).
`useAzure` is `AZURE_STORAGE_ACCOUNT !== "" || AZURE_STORAGE_CONNECTION_STRING !== ""`. -/
structure Config where
  gatewayUrl : String
  storageAccount : String
  azureContainer : String
  useAzure : Bool
  deriving Repr, DecidableEq

/-- The in-memory file object multer hands to the route handler
(`req.file`: originalname, size, mimetype, buffer). -/
structure UploadFile where
  originalname : String
  size : Nat
  mimetype : String
  buffer : List Nat
  deriving Repr, DecidableEq

/-- One inbound upload request: the `:lectureId` route parameter, the
optional `x-user-sub` header, the optional multipart file, and the value
`Date.now()` returns during the handler (milliseconds since epoch). -/
structure UploadRequest where
  lectureId : String
  userSub : Option String
  file : Option UploadFile
  timestamp : Nat
  deriving Repr, DecidableEq

/-- The `data` object passed to `prisma.videoUpload.create` by the upload
handlers (app.js lines 220-233 and 294-307). -/
structure UploadData where
  lecture_id : String
  user_id : Option String
  filename : String
  original_filename : String
  file_size : Nat
  mime_type : String
  blob_url : String
  blob_container : String
  blob_name : String
  encoding_status : String
  deriving Repr, DecidableEq

/-- A stored `VideoUpload` row, with the fields the read-side handlers
actually access (delete, sas-url, transcribe, transcription-status). -/
structure VideoUpload where
  id : String
  lecture_id : String
  blob_url : String
  blob_container : String
  blob_name : String
  transcription_job_id : Option String
  deriving Repr, DecidableEq

/-- The MIME allow-list in the multer `fileFilter` (app.js lines 61-68). -/
def allowedMimeTypes : List String :=
  ["video/mp4", "video/mpeg", "video/quicktime",
   "video/x-msvideo", "video/x-matroska", "video/webm"]

/-- multer `fileFilter` (app.js lines 59-74): accept exactly the
allow-listed MIME types. -/
def fileFilter (mimetype : String) : Bool :=
  allowedMimeTypes.contains mimetype

/-- The unique-filename template shared by both upload handlers
(app.js lines 195-196 and 269-270):
`${lectureId}_${timestamp}_${originalFilename}` with `timestamp = Date.now()`. -/
def uniqueFilename (lectureId : String) (timestamp : Nat) (originalFilename : String) : String :=
  lectureId ++ "_" ++ toString timestamp ++ "_" ++ originalFilename

/-- URL of a blob as the Azure SDK field `blockBlobClient.url` /
`blobClient.url` reports it: the account endpoint, container and blob name. -/
def blobUrlOf (account container name : String) : String :=
  "https://" ++ account ++ ".blob.core.windows.net/" ++ container ++ "/" ++ name

/-- Side effects an upload request performs against storage and the
metadata store, in program order. `write` is a storage write that returned
successfully (the bytes are durably stored); `writeFailed` is a storage
write that threw; `createRecord` is `prisma.videoUpload.create`. -/
inductive StoreEvent where
  | write (name : String)
  | writeFailed (name : String)
  | createRecord (data : UploadData)
  deriving Repr, DecidableEq

/-- HTTP-level outcome of an upload request. -/
inductive UploadResult where
  /-- a 4xx/multer rejection before any storage interaction -/
  | rejected (status : Nat) (error : String)
  /-- the catch-all 500 (`Failed to upload video`) -/
  | failure (error : String)
  /-- 201 with the created record -/
  | created (data : UploadData)
  deriving Repr, DecidableEq

/-- Body of the `POST /api/lectures/:lectureId/upload` handler
(app.js lines 181-247), entered after multer. `storageOk` records whether
the storage write (`uploadBlob` for Azure, `fs.writeFileSync` locally)
succeeds. Returns the side-effect trace in program order and the outcome. -/
def uploadHandlerLectures (cfg : Config) (storageOk : Bool) (req : UploadRequest) :
    List StoreEvent × UploadResult :=
  match req.file with
  | none => ([], .rejected 400 "No video file provided")
  | some f =>
    let originalFilename := f.originalname
    let fileSize := f.size
    let mimeType := f.mimetype
    let timestamp := req.timestamp
    let uniqueName := uniqueFilename req.lectureId timestamp originalFilename
    let blobName := uniqueName
    if storageOk then
      let blobUrl :=
        if cfg.useAzure then blobUrlOf cfg.storageAccount cfg.azureContainer uniqueName
        else cfg.gatewayUrl ++ "/api/videos/" ++ uniqueName
      let blobContainer := if cfg.useAzure then cfg.azureContainer else "local"
      let data : UploadData :=
        { lecture_id := req.lectureId
          user_id := req.userSub
          filename := uniqueName
          original_filename := originalFilename
          file_size := fileSize
          mime_type := mimeType
          blob_url := blobUrl
          blob_container := blobContainer
          blob_name := blobName
          encoding_status := "completed" }
      ([.write uniqueName, .createRecord data], .created data)
    else
      ([.writeFailed uniqueName], .failure "Failed to upload video")

/-- Body of the alternative `POST /api/uploads/:lectureId` handler
(app.js lines 255-321), transcribed independently of the first one. -/
def uploadHandlerUploads (cfg : Config) (storageOk : Bool) (req : UploadRequest) :
    List StoreEvent × UploadResult :=
  match req.file with
  | none => ([], .rejected 400 "No video file provided")
  | some f =>
    let originalFilename := f.originalname
    let fileSize := f.size
    let mimeType := f.mimetype
    let timestamp := req.timestamp
    let uniqueName := uniqueFilename req.lectureId timestamp originalFilename
    let blobName := uniqueName
    if storageOk then
      let blobUrl :=
        if cfg.useAzure then blobUrlOf cfg.storageAccount cfg.azureContainer uniqueName
        else cfg.gatewayUrl ++ "/api/videos/" ++ uniqueName
      let blobContainer := if cfg.useAzure then cfg.azureContainer else "local"
      let data : UploadData :=
        { lecture_id := req.lectureId
          user_id := req.userSub
          filename := uniqueName
          original_filename := originalFilename
          file_size := fileSize
          mime_type := mimeType
          blob_url := blobUrl
          blob_container := blobContainer
          blob_name := blobName
          encoding_status := "completed" }
      ([.write uniqueName, .createRecord data], .created data)
    else
      ([.writeFailed uniqueName], .failure "Failed to upload video")

/-- The multer stage in front of a handler: when a file part is present its
MIME type must pass `fileFilter` or multer aborts the request with
`Only video files are allowed` before the handler body runs (no storage,
no record); when no file part is present the handler runs with
`req.file` unset. -/
def multerThen (handler : Config → Bool → UploadRequest → List StoreEvent × UploadResult)
    (cfg : Config) (storageOk : Bool) (req : UploadRequest) :
    List StoreEvent × UploadResult :=
  match req.file with
  | some f =>
    if fileFilter f.mimetype then handler cfg storageOk req
    else ([], .rejected 500 "Only video files are allowed")
  | none => handler cfg storageOk req

/-- Full `POST /api/lectures/:lectureId/upload` endpoint: multer with the
shared `upload` instance, then the handler body. -/
def endpointUploadLectures (cfg : Config) (storageOk : Bool) (req : UploadRequest) :
    List StoreEvent × UploadResult :=
  multerThen uploadHandlerLectures cfg storageOk req

/-- Full `POST /api/uploads/:lectureId` endpoint. -/
def endpointUploadUploads (cfg : Config) (storageOk : Bool) (req : UploadRequest) :
    List StoreEvent × UploadResult :=
  multerThen uploadHandlerUploads cfg storageOk req

/-! ## Access grants (src/azureStorage.js) -/

/-- Which credential the blob service client was configured with
(azureStorage.js lines 8-17): a connection string yields a
`StorageSharedKeyCredential`, a bare account name yields
`DefaultAzureCredential` and hence the user-delegation path. -/
inductive CredentialStrategy where
  | sharedKey
  | delegatedIdentity
  deriving Repr, DecidableEq

/-- The individual blob SAS permissions `BlobSASPermissions.parse`
understands (r, a, c, w, d). -/
inductive SasPermission where
  | read
  | add
  | create
  | write
  | delete
  deriving Repr, DecidableEq

/-- Model of `BlobSASPermissions.parse`: each character of the input switches on one
permission; the code only ever calls it with `"r"`. -/
def sasPermissionsParse (s : String) : List SasPermission :=
  s.toList.filterMap fun c =>
    if c = 'r' then some .read
    else if c = 'a' then some .add
    else if c = 'c' then some .create
    else if c = 'w' then some .write
    else if c = 'd' then some .delete
    else none

/-- The fields of the SAS token that `generateBlobSASQueryParameters`
signs: target blob, permission set, validity window (ms since epoch). -/
structure SasToken where
  containerName : String
  blobName : String
  permissions : List SasPermission
  startsOn : Nat
  expiresOn : Nat
  deriving Repr, DecidableEq

/-- What `generateSasUrl` returns: either the blob URL carrying a signed
SAS token, or (in the catch fallback, azureStorage.js lines 73-79) the
plain blob URL with no token at all. -/
inductive SasResult where
  | signed (blobUrl : String) (token : SasToken)
  | plain (blobUrl : String)
  deriving Repr, DecidableEq

/-- Model of `generateSasUrl(blobServiceClient, containerName, blobName,
expiresInMinutes = 60)` (azureStorage.js lines 27-80). The JS function
declares no permission parameter: both credential branches pass
`BlobSASPermissions.parse("r")`. `now` is the value `new Date()` captures,
`signingOk` records whether token generation (including the delegation-key
round-trip) succeeds; on failure the catch returns the plain blob URL. -/
def generateSasUrl (strategy : CredentialStrategy) (signingOk : Bool) (now : Nat)
    (account containerName blobName : String) (expiresInMinutes : Nat) : SasResult :=
  if signingOk then
    match strategy with
    | .sharedKey =>
      let startsOn := now
      let expiresOn := startsOn + expiresInMinutes * 60 * 1000
      .signed (blobUrlOf account containerName blobName)
        { containerName := containerName
          blobName := blobName
          permissions := sasPermissionsParse "r"
          startsOn := startsOn
          expiresOn := expiresOn }
    | .delegatedIdentity =>
      let startsOn := now
      let expiresOn := startsOn + expiresInMinutes * 60 * 1000
      .signed (blobUrlOf account containerName blobName)
        { containerName := containerName
          blobName := blobName
          permissions := sasPermissionsParse "r"
          startsOn := startsOn
          expiresOn := expiresOn }
  else
    .plain (blobUrlOf account containerName blobName)

/-! ## Delete endpoint (app.js lines 326-353, azureStorage.js lines 85-89) -/

/-- Outcome of the `blockBlobClient.deleteIfExists()` call inside `deleteBlob`:
`deletedOrMissing` covers both an actual delete and a missing blob (the
`IfExists` variant succeeds on 404); `storageError` is any other thrown
error (network, auth), which propagates out of `deleteBlob`. -/
inductive BlobDeleteOutcome where
  | deletedOrMissing
  | storageError
  deriving Repr, DecidableEq

/-- HTTP-level outcome of `DELETE /api/uploads/:id`. -/
inductive DeleteResult where
  | notFound
  | serverError (error : String)
  | success (message : String)
  deriving Repr, DecidableEq

/-- The `DELETE /api/uploads/:id` handler. `lookup` is what
`prisma.videoUpload.findUnique` returns; `blobOutcome` is the physical
delete outcome when it is attempted. Returns the HTTP outcome and
whether the metadata row was deleted. -/
def deleteUploadHandler (cfg : Config) (lookup : Option VideoUpload)
    (blobOutcome : BlobDeleteOutcome) : DeleteResult × Bool :=
  match lookup with
  | none => (.notFound, false)
  | some _ =>
    if cfg.useAzure then
      match blobOutcome with
      | .storageError => (.serverError "Failed to delete upload", false)
      | .deletedOrMissing => (.success "Upload deleted successfully", true)
    else
      (.success "Upload deleted successfully", true)

/-! ## SAS URL endpoint (app.js lines 379-410) -/

/-- Response of `GET /api/uploads/:id/sas-url`: the `expiresIn` field is
`null` in local mode and the requested TTL in Azure mode. -/
inductive SasEndpointResult where
  | notFound
  | ok (url : SasResult) (expiresIn : Option Nat)
  deriving Repr, DecidableEq

/-- Model of `Number(req.query.expiresIn) || 60`: a missing (NaN) or zero query
value falls back to 60 minutes. -/
def parseExpiresIn (q : Option Nat) : Nat :=
  match q with
  | none => 60
  | some n => if n = 0 then 60 else n

/-- The `GET /api/uploads/:id/sas-url` handler. In local mode it returns
the stored `blob_url` as-is with `expiresIn: null`; in Azure mode it calls
`generateSasUrl` with the requested TTL. -/
def sasUrlHandler (cfg : Config) (strategy : CredentialStrategy) (signingOk : Bool)
    (now : Nat) (lookup : Option VideoUpload) (expiresInQuery : Option Nat) :
    SasEndpointResult :=
  let expiresIn := parseExpiresIn expiresInQuery
  match lookup with
  | none => .notFound
  | some u =>
    if cfg.useAzure then
      .ok (generateSasUrl strategy signingOk now cfg.storageAccount
            u.blob_container u.blob_name expiresIn) (some expiresIn)
    else
      .ok (.plain u.blob_url) none

/-! ## Transcription orchestration (app.js lines 415-579) -/

/-- Model of `upload.blob_name.replace(/\.[^.]+$/, "")`: strip a final extension,
i.e. a dot followed by one or more non-dot characters at the end of the
string; when the pattern does not match, the string is unchanged. -/
def stripExt (s : String) : String :=
  let cs := s.toList
  let afterLastDot := (cs.reverse.takeWhile (fun c => c ≠ '.')).length
  if cs.contains '.' ∧ afterLastDot ≠ 0 then
    String.mk (cs.take (cs.length - afterLastDot - 1))
  else
    s

/-- The three access URLs handed to the transcription service: in Azure
mode, SAS grants produced by `generateSasUrl`; in local mode, direct
gateway URLs. -/
inductive TranscribeGrants where
  | azure (videoSas jsonGrant vttGrant : SasResult)
  | localMode (videoUrl jsonUrl vttUrl : String)
  deriving Repr, DecidableEq

/-- HTTP-level outcome of `POST /api/lectures/:lectureId/transcribe`. -/
inductive TranscribeResult where
  | notFound
  | orchestrationError (error : String)
  | accepted (jobId : String)
  deriving Repr, DecidableEq

/-- Outcome of the `fetch` to `${GATEWAY_URL}/api/transcriptions`:
either a non-ok HTTP status (`response.ok` false, which makes the handler
throw) or a parsed body carrying `job_id`. -/
inductive SubmitOutcome where
  | httpError
  | ok (jobId : String)
  deriving Repr, DecidableEq

/-- The `POST /api/lectures/:lectureId/transcribe` handler. `latest` is
the newest upload row for the lecture (`findFirst` ordered by
`created_at desc`); `submit` is the response of the transcription service.
Returns the HTTP outcome, the grants that were issued (none when the
handler exits before issuing them) and the `transcription_job_id` written
to the row (`none` means the row is left unchanged). -/
def transcribeHandler (cfg : Config) (strategy : CredentialStrategy) (signingOk : Bool)
    (now : Nat) (latest : Option VideoUpload) (submit : SubmitOutcome) :
    TranscribeResult × Option TranscribeGrants × Option String :=
  match latest with
  | none => (.notFound, none, none)
  | some u =>
    let grants :=
      if cfg.useAzure then
        let videoSas := generateSasUrl strategy signingOk now cfg.storageAccount
          u.blob_container u.blob_name 120
        let baseName := stripExt u.blob_name
        let jsonUploadUrl := generateSasUrl strategy signingOk now cfg.storageAccount
          u.blob_container (baseName ++ ".json") 120
        let vttUploadUrl := generateSasUrl strategy signingOk now cfg.storageAccount
          u.blob_container (baseName ++ ".vtt") 120
        TranscribeGrants.azure videoSas jsonUploadUrl vttUploadUrl
      else
        let baseName := stripExt u.blob_name
        TranscribeGrants.localMode u.blob_url
          (cfg.gatewayUrl ++ "/api/videos/" ++ baseName ++ ".json")
          (cfg.gatewayUrl ++ "/api/videos/" ++ baseName ++ ".vtt")
    match submit with
    | .httpError => (.orchestrationError "Failed to start transcription", some grants, none)
    | .ok jobId => (.accepted jobId, some grants, some jobId)

/-- HTTP-level outcome of `GET /api/lectures/:lectureId/transcription`.
`statusNone` is the 200 response `{ status: "none" }` returned when the
latest upload row has no stored `transcription_job_id`. -/
inductive TranscriptionStatusResult where
  | notFound
  | statusNone
  | jobStatus (jobId : String) (status : String) (error : Option String)
  | serverError (error : String)
  deriving Repr, DecidableEq

/-- Outcome of the status `fetch` to
`${GATEWAY_URL}/api/transcriptions/:jobId`. -/
inductive StatusFetchOutcome where
  | httpError
  | ok (jobId : String) (status : String) (error : Option String)
  deriving Repr, DecidableEq

/-- The `GET /api/lectures/:lectureId/transcription` handler, up to the
download-URL decoration for finished jobs (not needed by the claims).
Absence of the stored job handle short-circuits to `{ status: "none" }`
before any call to the transcription service. -/
def transcriptionStatusHandler (latest : Option VideoUpload)
    (statusFetch : StatusFetchOutcome) : TranscriptionStatusResult :=
  match latest with
  | none => .notFound
  | some u =>
    match u.transcription_job_id with
    | none => .statusNone
    | some _ =>
      match statusFetch with
      | .httpError => .serverError "Failed to get transcription status"
      | .ok jobId status error => .jobStatus jobId status error

/-! ## Local video serving and path resolution (app.js lines 582-602) -/

/-- Split a character list at every slash (the segments of a POSIX path). -/
def splitSlashChars : List Char → List (List Char)
  | [] => [[]]
  | c :: cs =>
    let rest := splitSlashChars cs
    if c = '/' then [] :: rest
    else
      match rest with
      | h :: t => (c :: h) :: t
      | [] => [[c]]

/-- Split a path string into its slash-separated segments. -/
def splitSlash (s : String) : List String :=
  (splitSlashChars s.toList).map String.mk

/-- Join path segments back with slashes. -/
def joinSegments : List String → String
  | [] => ""
  | [s] => s
  | s :: rest => s ++ "/" ++ joinSegments rest

/-- The JavaScript string method `startsWith`: the first argument begins
with the second. -/
def strStartsWith (s pre : String) : Bool :=
  List.isPrefixOf pre.toList s.toList

/-- POSIX path normalisation over segments, as `path.join` performs after
concatenation: drop empty and `.` segments, let `..` pop the previous
segment (and disappear at the root of an absolute path). -/
def normSegments (segs : List String) : List String :=
  segs.foldl
    (fun acc seg =>
      if seg = "" ∨ seg = "." then acc
      else if seg = ".." then acc.dropLast
      else acc ++ [seg])
    []

/-- Model of `path.join(base, child)` for an absolute `base`: concatenate and
normalise. -/
def pathJoin (base child : String) : String :=
  "/" ++ joinSegments (normSegments (splitSlash base ++ splitSlash child))

/-- Value of `LOCAL_STORAGE_DIR = path.join(__dirname, "..", "local-storage")`
with `__dirname = /usr/src/app/src` (the Dockerfile WORKDIR is
`/usr/src/app` and app.js lives in `src/`). -/
def LOCAL_STORAGE_DIR : String := "/usr/src/app/local-storage"

/-- Outcome of `GET /api/videos/:filename`. -/
inductive ServeResult where
  /-- 403 `Access denied` from the traversal check -/
  | denied
  /-- 404 `Video not found` -/
  | notFound
  /-- 200, `res.sendFile(filePath)` on the resolved absolute path -/
  | served (filePath : String)
  deriving Repr, DecidableEq

/-- The `GET /api/videos/:filename` handler: join the caller-supplied
filename onto the storage root, reject when the result does not have the
root as a string prefix, then serve the file if it exists. `fileExists`
models `fs.existsSync`. -/
def serveVideoHandler (fileExists : String → Bool) (filename : String) : ServeResult :=
  let filePath := pathJoin LOCAL_STORAGE_DIR filename
  if ¬ strStartsWith filePath LOCAL_STORAGE_DIR then .denied
  else if ¬ fileExists filePath then .notFound
  else .served filePath

/-- The property the spec demands of the resolved path (its words, for
comparison with what the handler checks): the path is the storage root
itself or lies strictly inside it. -/
def insideRoot (root filePath : String) : Bool :=
  filePath = root ∨ strStartsWith filePath (root ++ "/")

/-! ## Concrete fixtures used to evaluate the model -/

/-- Local-mode configuration: no Azure account and no connection string. -/
def cfgLocal : Config :=
  { gatewayUrl := "http://localhost:8081"
    storageAccount := ""
    azureContainer := "videos"
    useAzure := false }

/-- Azure-mode configuration with account `acct` and container `videos`. -/
def cfgAzure : Config :=
  { gatewayUrl := "http://localhost:8081"
    storageAccount := "acct"
    azureContainer := "videos"
    useAzure := true }

/-- A 100-byte mp4 named a.mp4. -/
def fileA : UploadFile :=
  { originalname := "a.mp4", size := 100, mimetype := "video/mp4", buffer := [1] }

/-- A different 200-byte mp4, also named a.mp4. -/
def fileB : UploadFile :=
  { originalname := "a.mp4", size := 200, mimetype := "video/mp4", buffer := [2] }

/-- Upload of `fileA` to lecture L1 at `Date.now() = 1700000000000`. -/
def reqA : UploadRequest :=
  { lectureId := "L1", userSub := none, file := some fileA, timestamp := 1700000000000 }

/-- Upload of `fileB` to lecture L1 in the same millisecond as `reqA`. -/
def reqB : UploadRequest :=
  { lectureId := "L1", userSub := none, file := some fileB, timestamp := 1700000000000 }

/-- The record the local-mode pipeline creates for `reqA`. -/
def dataA : UploadData :=
  { lecture_id := "L1"
    user_id := none
    filename := "L1_1700000000000_a.mp4"
    original_filename := "a.mp4"
    file_size := 100
    mime_type := "video/mp4"
    blob_url := "http://localhost:8081/api/videos/L1_1700000000000_a.mp4"
    blob_container := "local"
    blob_name := "L1_1700000000000_a.mp4"
    encoding_status := "completed" }

/-- The record the local-mode pipeline creates for `reqB`. -/
def dataB : UploadData :=
  { dataA with file_size := 200 }

/-- A stored Azure-mode row for lecture L1, no transcription requested yet. -/
def recAzure : VideoUpload :=
  { id := "u-1"
    lecture_id := "L1"
    blob_url := "https://acct.blob.core.windows.net/videos/L1_1700000000000_a.mp4"
    blob_container := "videos"
    blob_name := "L1_1700000000000_a.mp4"
    transcription_job_id := none }

/-- A stored local-mode row for lecture L1, no transcription requested yet. -/
def recLocal : VideoUpload :=
  { id := "u-2"
    lecture_id := "L1"
    blob_url := "http://localhost:8081/api/videos/L1_1700000000000_a.mp4"
    blob_container := "local"
    blob_name := "L1_1700000000000_a.mp4"
    transcription_job_id := none }

/-- Permission set of a grant result, when it carries a signed token. -/
def grantPermissions : SasResult → Option (List SasPermission)
  | .signed _ t => some t.permissions
  | .plain _ => none

/-- The read grant on the source video among issued transcription grants. -/
def videoGrantOf : Option TranscribeGrants → Option SasResult
  | some (.azure v _ _) => some v
  | _ => none

/-- The write grant on the derived `.json` output name. -/
def jsonGrantOf : Option TranscribeGrants → Option SasResult
  | some (.azure _ j _) => some j
  | _ => none

/-- The write grant on the derived `.vtt` output name. -/
def vttGrantOf : Option TranscribeGrants → Option SasResult
  | some (.azure _ _ w) => some w
  | _ => none

/-- A non-video upload request (declared MIME type application/pdf). -/
def filePdf : UploadFile :=
  { originalname := "a.pdf", size := 10, mimetype := "application/pdf", buffer := [0] }

/-- Upload request carrying `filePdf` for lecture L1. -/
def reqPdf : UploadRequest :=
  { lectureId := "L1", userSub := none, file := some filePdf, timestamp := 1700000000000 }

/-- The token the shared-key strategy signs for blob a.mp4 at time 1000
with a 60-minute TTL. -/
def tokenShared : SasToken :=
  { containerName := "videos"
    blobName := "a.mp4"
    permissions := [SasPermission.read]
    startsOn := 1000
    expiresOn := 3601000 }

/-! ## Claims -/

/-- C1: the claim that any two accepted uploads for the same lecture get
distinct stored object names fails on the code. Two different uploads of
a.mp4 to lecture L1 in the same millisecond (sizes 100 and 200 bytes) are
both accepted and both receive the stored object name
`L1_1700000000000_a.mp4`, because the name is derived only from the
lecture id, the `Date.now()` millisecond and the original filename. -/
theorem c1_same_millisecond_name_collision :
    reqA ≠ reqB ∧
    (endpointUploadLectures cfgLocal true reqA).2 = UploadResult.created dataA ∧
    (endpointUploadLectures cfgLocal true reqB).2 = UploadResult.created dataB ∧
    dataA ≠ dataB ∧
    dataA.filename = dataB.filename := by
  refine ⟨by decide, rfl, rfl, by decide, rfl⟩

/-- C2: the claim that grants requested with write permission yield tokens
that permit writing fails on the code. For the transcribe request on an
Azure-mode asset, the grant issuer ignores the requested permission (its
JS declaration has no permission parameter and both credential branches
parse the permission string r), so the two grants on the derived .json and
.vtt names carry the permission set `[read]`, which contains neither write
nor delete; the read grant on the source is read-only as claimed. -/
theorem c2_write_grants_are_read_only :
    (videoGrantOf (transcribeHandler cfgAzure .sharedKey true 1700000000000
        (some recAzure) (.ok "job-1")).2.1).bind grantPermissions =
      some [SasPermission.read] ∧
    (jsonGrantOf (transcribeHandler cfgAzure .sharedKey true 1700000000000
        (some recAzure) (.ok "job-1")).2.1).bind grantPermissions =
      some [SasPermission.read] ∧
    (vttGrantOf (transcribeHandler cfgAzure .sharedKey true 1700000000000
        (some recAzure) (.ok "job-1")).2.1).bind grantPermissions =
      some [SasPermission.read] ∧
    SasPermission.write ∉ [SasPermission.read] ∧
    SasPermission.delete ∉ [SasPermission.read] := by
  refine ⟨rfl, rfl, rfl, by decide, by decide⟩

/-- C3: the claim that every filename whose resolved path escapes the
storage root is rejected fails on the code. The filename
`../local-storage-evil/secret` resolves to
`/usr/src/app/local-storage-evil/secret`, which lies outside the root
`/usr/src/app/local-storage`, yet the handler serves it, because the
check is a plain string-prefix test that also accepts sibling directories
whose names extend the root string. -/
theorem c3_traversal_check_bypass :
    insideRoot LOCAL_STORAGE_DIR
      (pathJoin LOCAL_STORAGE_DIR "../local-storage-evil/secret") = false ∧
    serveVideoHandler (fun _ => true) "../local-storage-evil/secret" =
      ServeResult.served "/usr/src/app/local-storage-evil/secret" := by
  refine ⟨by decide, by decide⟩

/-- C4 counterexample: deleting an existing asset whose physical delete
throws a storage error is fatal in the code: the handler answers with the
500 `Failed to delete upload` and the metadata record is not removed,
contradicting the claim that a physical-delete failure is non-fatal and
that the record is removed regardless of the physical-delete outcome. -/
theorem c4_delete_failure_is_fatal :
    deleteUploadHandler cfgAzure (some recAzure) .storageError =
      (DeleteResult.serverError "Failed to delete upload", false) := rfl

/-- C4 (amended): deleting an unknown asset id reports not-found; deleting
an existing asset attempts the physical delete, where a missing object
counts as success; when the physical delete does not throw (or no physical
delete is attempted, as in local mode) the metadata record is then
removed; but when the physical delete throws, the request fails with a
server error and the metadata record is kept. -/
theorem c4_delete_semantics (cfg : Config) (lookup : Option VideoUpload)
    (b : BlobDeleteOutcome) :
    (lookup = none → deleteUploadHandler cfg lookup b = (DeleteResult.notFound, false)) ∧
    (∀ u, lookup = some u → b = .deletedOrMissing →
      deleteUploadHandler cfg lookup b =
        (DeleteResult.success "Upload deleted successfully", true)) ∧
    (∀ u, lookup = some u → cfg.useAzure = true → b = .storageError →
      deleteUploadHandler cfg lookup b =
        (DeleteResult.serverError "Failed to delete upload", false)) ∧
    (∀ u, lookup = some u → cfg.useAzure = false →
      deleteUploadHandler cfg lookup b =
        (DeleteResult.success "Upload deleted successfully", true)) := by
  refine ⟨fun h => by subst h; rfl, fun u hu hb => ?_, fun u hu hA hb => ?_, fun u hu hA => ?_⟩
  · subst hu; subst hb
    cases hA : cfg.useAzure <;> simp [deleteUploadHandler, hA]
  · subst hu; subst hb
    simp [deleteUploadHandler, hA]
  · subst hu
    simp [deleteUploadHandler, hA]

/-- Witness for C4 (amended): a concrete delete of an existing Azure-mode
asset whose physical object is already gone removes the record, and a
delete of an unknown id reports not-found. -/
theorem c4_delete_semantics_witness :
    deleteUploadHandler cfgAzure (some recAzure) .deletedOrMissing =
      (DeleteResult.success "Upload deleted successfully", true) ∧
    deleteUploadHandler cfgAzure none .deletedOrMissing = (DeleteResult.notFound, false) :=
  ⟨(c4_delete_semantics cfgAzure (some recAzure) .deletedOrMissing).2.1 recAzure rfl rfl,
   (c4_delete_semantics cfgAzure none .deletedOrMissing).1 rfl⟩

/-- C5: within one upload request, on either endpoint, the storage write
happens before metadata-record creation and a failed storage write creates
no record: whenever the side-effect trace contains a record creation, the
trace is exactly a successful storage write of the stored filename
followed by that record creation; with a failing storage write no record
creation occurs in the trace. -/
theorem c5_storage_write_before_record (cfg : Config) (storageOk : Bool)
    (req : UploadRequest) :
    (storageOk = false →
      (∀ d, StoreEvent.createRecord d ∉ (endpointUploadLectures cfg storageOk req).1) ∧
      (∀ d, StoreEvent.createRecord d ∉ (endpointUploadUploads cfg storageOk req).1)) ∧
    (∀ d, StoreEvent.createRecord d ∈ (endpointUploadLectures cfg storageOk req).1 →
      storageOk = true ∧ (endpointUploadLectures cfg storageOk req).1 =
        [StoreEvent.write d.filename, StoreEvent.createRecord d]) ∧
    (∀ d, StoreEvent.createRecord d ∈ (endpointUploadUploads cfg storageOk req).1 →
      storageOk = true ∧ (endpointUploadUploads cfg storageOk req).1 =
        [StoreEvent.write d.filename, StoreEvent.createRecord d]) := by
  obtain ⟨lid, us, file, ts⟩ := req
  refine ⟨?_, ?_, ?_⟩
  · rintro rfl
    constructor <;> intro d <;>
      cases file with
      | none =>
        simp [endpointUploadLectures, endpointUploadUploads, multerThen,
          uploadHandlerLectures, uploadHandlerUploads]
      | some f =>
        by_cases hm : fileFilter f.mimetype <;>
          simp [endpointUploadLectures, endpointUploadUploads, multerThen,
            uploadHandlerLectures, uploadHandlerUploads, hm]
  · intro d hd
    cases file with
    | none =>
      simp [endpointUploadLectures, multerThen, uploadHandlerLectures] at hd
    | some f =>
      by_cases hm : fileFilter f.mimetype
      · cases storageOk with
        | false =>
          simp [endpointUploadLectures, multerThen, uploadHandlerLectures, hm] at hd
        | true =>
          simp [endpointUploadLectures, multerThen, uploadHandlerLectures, hm] at hd
          subst hd
          refine ⟨rfl, ?_⟩
          simp [endpointUploadLectures, multerThen, uploadHandlerLectures, hm]
      · simp [endpointUploadLectures, multerThen, uploadHandlerLectures, hm] at hd
  · intro d hd
    cases file with
    | none =>
      simp [endpointUploadUploads, multerThen, uploadHandlerUploads] at hd
    | some f =>
      by_cases hm : fileFilter f.mimetype
      · cases storageOk with
        | false =>
          simp [endpointUploadUploads, multerThen, uploadHandlerUploads, hm] at hd
        | true =>
          simp [endpointUploadUploads, multerThen, uploadHandlerUploads, hm] at hd
          subst hd
          refine ⟨rfl, ?_⟩
          simp [endpointUploadUploads, multerThen, uploadHandlerUploads, hm]
      · simp [endpointUploadUploads, multerThen, uploadHandlerUploads, hm] at hd

/-- Witness for C5: the concrete local-mode upload of a.mp4 creates its
record, and its trace is the successful storage write followed by the
record creation. -/
theorem c5_storage_write_before_record_witness :
    StoreEvent.createRecord dataA ∈ (endpointUploadLectures cfgLocal true reqA).1 ∧
    (endpointUploadLectures cfgLocal true reqA).1 =
      [StoreEvent.write dataA.filename, StoreEvent.createRecord dataA] := by
  have h := (c5_storage_write_before_record cfgLocal true reqA).2.1 dataA (by decide)
  exact ⟨by decide, h.2⟩

/-- C6: an upload whose declared MIME type is outside the fixed allow-list
is rejected by the multer file filter before the handler body runs: on
both endpoints the side-effect trace is empty (no storage write, no
record) and the outcome is the `Only video files are allowed` rejection. -/
theorem c6_disallowed_mime_rejected_early (cfg : Config) (storageOk : Bool)
    (req : UploadRequest) (f : UploadFile) (hf : req.file = some f)
    (hm : f.mimetype ∉ allowedMimeTypes) :
    endpointUploadLectures cfg storageOk req =
      ([], UploadResult.rejected 500 "Only video files are allowed") ∧
    endpointUploadUploads cfg storageOk req =
      ([], UploadResult.rejected 500 "Only video files are allowed") := by
  have hff : fileFilter f.mimetype = false := by
    cases hc : fileFilter f.mimetype with
    | false => rfl
    | true => exact absurd (List.elem_iff.mp hc) hm
  constructor <;>
    simp [endpointUploadLectures, endpointUploadUploads, multerThen, hf, hff]

/-- Witness for C6: a concrete application/pdf upload is rejected with an
empty side-effect trace on both endpoints. -/
theorem c6_disallowed_mime_rejected_early_witness :
    endpointUploadLectures cfgLocal true reqPdf =
      ([], UploadResult.rejected 500 "Only video files are allowed") ∧
    endpointUploadUploads cfgLocal true reqPdf =
      ([], UploadResult.rejected 500 "Only video files are allowed") :=
  c6_disallowed_mime_rejected_early cfgLocal true reqPdf filePdf rfl (by decide)

/-- C7: when the transcription submission returns a non-success status,
the transcribe handler answers with the generic
`Failed to start transcription` error and writes no transcription job
handle to the asset row (the persisted-job-id component is none). -/
theorem c7_submit_failure_persists_nothing (cfg : Config)
    (strategy : CredentialStrategy) (signingOk : Bool) (now : Nat) (u : VideoUpload) :
    (transcribeHandler cfg strategy signingOk now (some u) .httpError).1 =
      TranscribeResult.orchestrationError "Failed to start transcription" ∧
    (transcribeHandler cfg strategy signingOk now (some u) .httpError).2.2 = none :=
  ⟨rfl, rfl⟩

/-- C8: when signing succeeds, either credential strategy produces a token
whose validity window is exactly `[now, now + ttl minutes]`; and in local
mode the sas-url endpoint returns the stored blob URL as-is with the TTL
reported as absent. -/
theorem c8_grant_validity_window (strategy : CredentialStrategy) (signingOk : Bool)
    (now : Nat) (account container name : String) (ttl : Nat)
    (cfg : Config) (strat2 : CredentialStrategy) (sOk2 : Bool) (now2 : Nat)
    (u : VideoUpload) (q : Option Nat) :
    (∀ url t, generateSasUrl strategy signingOk now account container name ttl =
        SasResult.signed url t →
      t.startsOn = now ∧ t.expiresOn = now + ttl * 60 * 1000) ∧
    (cfg.useAzure = false →
      sasUrlHandler cfg strat2 sOk2 now2 (some u) q =
        SasEndpointResult.ok (SasResult.plain u.blob_url) none) := by
  constructor
  · intro url t h
    cases signingOk with
    | false => simp [generateSasUrl] at h
    | true =>
      cases strategy <;>
        · simp [generateSasUrl] at h
          obtain ⟨h1, h2⟩ := h
          subst h2
          exact ⟨rfl, rfl⟩
  · intro h
    simp [sasUrlHandler, h]

/-- Witness for C8: the shared-key token for a.mp4 at time 1000 with a
60-minute TTL has the window `[1000, 1000 + 60 * 60 * 1000]`, and the
local-mode endpoint answers with the stored URL and no TTL. -/
theorem c8_grant_validity_window_witness :
    (tokenShared.startsOn = 1000 ∧ tokenShared.expiresOn = 1000 + 60 * 60 * 1000) ∧
    sasUrlHandler cfgLocal .sharedKey true 0 (some recLocal) none =
      SasEndpointResult.ok (SasResult.plain recLocal.blob_url) none := by
  have h := c8_grant_validity_window .sharedKey true 1000 "acct" "videos" "a.mp4" 60
    cfgLocal .sharedKey true 0 recLocal none
  exact ⟨h.1 (blobUrlOf "acct" "videos" "a.mp4") tokenShared rfl, h.2 rfl⟩

/-- C9: starting transcription for a lecture with no uploaded asset
answers not-found, and a status query whose latest asset has no stored job
handle answers the success state `none`, a constructor distinct from
not-found, from the server error and from every in-progress job status. -/
theorem c9_no_asset_and_no_job_states (cfg : Config) (strategy : CredentialStrategy)
    (signingOk : Bool) (now : Nat) (submit : SubmitOutcome)
    (u : VideoUpload) (sf : StatusFetchOutcome)
    (hjob : u.transcription_job_id = none) :
    (transcribeHandler cfg strategy signingOk now none submit).1 =
      TranscribeResult.notFound ∧
    transcriptionStatusHandler (some u) sf = TranscriptionStatusResult.statusNone ∧
    TranscriptionStatusResult.statusNone ≠ TranscriptionStatusResult.notFound ∧
    (∀ e, TranscriptionStatusResult.statusNone ≠ TranscriptionStatusResult.serverError e) ∧
    (∀ j s e, TranscriptionStatusResult.statusNone ≠
      TranscriptionStatusResult.jobStatus j s e) := by
  refine ⟨rfl, ?_, by decide,
    fun e h => TranscriptionStatusResult.noConfusion h,
    fun j s e h => TranscriptionStatusResult.noConfusion h⟩
  simp [transcriptionStatusHandler, hjob]

/-- Witness for C9: with no asset the concrete transcribe request answers
not-found, and the status query on a row without a job handle answers the
state `none`. -/
theorem c9_no_asset_and_no_job_states_witness :
    (transcribeHandler cfgLocal .sharedKey true 0 none .httpError).1 =
      TranscribeResult.notFound ∧
    transcriptionStatusHandler (some recLocal) .httpError =
      TranscriptionStatusResult.statusNone := by
  have h := c9_no_asset_and_no_job_states cfgLocal .sharedKey true 0 .httpError
    recLocal .httpError rfl
  exact ⟨h.1, h.2.1⟩

/-- C10: the two upload endpoints are behaviorally equivalent: for every
configuration, storage outcome and request they perform the same
validation, the same storage write, create a record with the same field
values and return the same response (the full trace-and-result pairs are
equal). -/
theorem c10_upload_endpoints_equivalent (cfg : Config) (storageOk : Bool)
    (req : UploadRequest) :
    endpointUploadLectures cfg storageOk req = endpointUploadUploads cfg storageOk req := rfl

end SvcVideo

